import Mathlib

/-!
Shallow embedding of the httpmock transport library (transport.go).

The Go code keeps a registry `map[string]Responder` keyed by the string
`method + " " + url`, an optional catch-all responder (`noResponder`), and a
mutex.  Dispatch (`RoundTrip`) tries the exact key, then the key with the URL
truncated at the first `?`, then the catch-all, then the `NoResponderFound`
sentinel.  Activation swaps `http.DefaultTransport` (or a custom client's
transport) for the mock transport and restores it on `Deactivate`.

Responders are modelled as Lean functions `Request → Option Response × Option
Err`; a Go `nil` responder value is `none : Option Responder`.  The Go map is
modelled as an association list with unique keys (`insertAL` overwrites in
place, mirroring map assignment).  Transport identity (Go pointer equality on
`http.RoundTripper`) is modelled by the inductive `RT`.
-/

namespace Httpmock

/-- A mocked HTTP response: the parts of `*http.Response` the library produces. -/
structure Response where
  statusCode : Nat
  body : String
deriving DecidableEq, Repr

/-- Errors returned through the responder result slot.  `noResponderFound`
models the sentinel `var NoResponderFound = errors.New("no responder found")`. -/
inductive Err where
  | noResponderFound
  | other (msg : String)
deriving DecidableEq, Repr

/-- The parts of `*http.Request` that `RoundTrip` consults: `req.Method` and
`req.URL.String()`. -/
structure Request where
  method : String
  url : String
deriving DecidableEq, Repr

/-- Go: `type Responder func(*http.Request) (*http.Response, error)`. -/
def Responder : Type := Request → Option Response × Option Err

/-- Go: `func ConnectionFailure(*http.Request) (*http.Response, error) {
return nil, NoResponderFound }`. -/
def ConnectionFailure (_ : Request) : Option Response × Option Err :=
  (none, some Err.noResponderFound)

/-- Lookup in the association list modelling the Go map
`map[string]Responder`.  The stored value is `Option Responder` because a Go
map may hold a `nil` responder under a present key. -/
def lookupAL : List (String × Option Responder) → String → Option (Option Responder)
  | [], _ => none
  | (k, v) :: rest, key => if k = key then some v else lookupAL rest key

/-- Map assignment `m[key] = v`: overwrite the binding in place when the key
is present, append otherwise.  Preserves key uniqueness. -/
def insertAL : List (String × Option Responder) → String → Option Responder →
    List (String × Option Responder)
  | [], key, v => [(key, v)]
  | (k, w) :: rest, key, v =>
    if k = key then (key, v) :: rest else (k, w) :: insertAL rest key v

/-- Go struct `MockTransport{mu sync.Mutex; responders map[string]Responder;
noResponder Responder}`.  The mutex is not data; lock discipline is modelled
separately by `dispatchTrace`. -/
structure MockTransport where
  responders : List (String × Option Responder)
  noResponder : Option Responder

/-- Go: `NewMockTransport` returns a transport with an empty responder map. -/
def NewMockTransport : MockTransport :=
  { responders := [], noResponder := none }

/-- Go `responderForKey`: iterate the map, return the stored value on a key
match (which may be `nil`), `nil` when the key is absent.  Both the absent
key and a stored `nil` collapse to `none` here, exactly as both yield a `nil`
`Responder` in Go. -/
def MockTransport.responderForKey (m : MockTransport) (key : String) : Option Responder :=
  match lookupAL m.responders key with
  | some r => r
  | none => none

/-- Go: `strings.Contains(url, "?")`. -/
def containsQuery (url : String) : Bool :=
  url.toList.contains '?'

/-- Go: `strings.Split(url, "?")[0]` — everything before the first `?`. -/
def stripQuery (url : String) : String :=
  String.mk (url.toList.takeWhile (fun c => c ≠ '?'))

/-- The responder-selection phase of `RoundTrip` (transport.go lines 47-56):
exact key first, then, if that found nothing and the URL contains `?`, the
query-stripped key. -/
def MockTransport.chosenResponder (m : MockTransport) (req : Request) : Option Responder :=
  let r0 := m.responderForKey (req.method ++ " " ++ req.url)
  if r0.isNone && containsQuery req.url then
    m.responderForKey (req.method ++ " " ++ stripQuery req.url)
  else r0

/-- Go `RoundTrip`: invoke the selected responder if any; otherwise fall back
to the catch-all `noResponder`, or to `ConnectionFailure` when none is set. -/
def MockTransport.RoundTrip (m : MockTransport) (req : Request) :
    Option Response × Option Err :=
  match m.chosenResponder req with
  | some r => r req
  | none =>
    match m.noResponder with
    | none => ConnectionFailure req
    | some r => r req

/-- Go `RegisterResponder`: `m.responders[method+" "+url] = responder`.  The
responder argument is `Option` because Go callers may pass `nil`. -/
def MockTransport.RegisterResponder (m : MockTransport) (method url : String)
    (responder : Option Responder) : MockTransport :=
  { m with responders := insertAL m.responders (method ++ " " ++ url) responder }

/-- Go `RegisterNoResponder`: `m.noResponder = responder` (nil clears). -/
def MockTransport.RegisterNoResponder (m : MockTransport) (responder : Option Responder) :
    MockTransport :=
  { m with noResponder := responder }

/-- Go `Reset`: fresh empty map, catch-all cleared. -/
def MockTransport.Reset (_ : MockTransport) : MockTransport :=
  { responders := [], noResponder := none }

/-- Go `Len`: `len(m.responders)`.  Key uniqueness is maintained by
`insertAL`, so list length equals the Go map's entry count. -/
def MockTransport.Len (m : MockTransport) : Nat :=
  m.responders.length

/-- Go `HasNoResponder`: `m.noResponder != nil`. -/
def MockTransport.HasNoResponder (m : MockTransport) : Bool :=
  m.noResponder.isSome

/-! ### Lock-discipline trace model for `RoundTrip`

The Go `RoundTrip` acquires the transport mutex inside `responderForKey`
(released before that helper returns), invokes a responder found there with
the mutex free, but — in the catch-all branch — holds the mutex across the
call `m.noResponder(req)` because the `defer m.mu.Unlock()` only fires after
that call returns.  `dispatchTrace` records the sequence of lock events,
field accesses and responder invocations that `RoundTrip` performs, in
program order. -/

/-- Events emitted by a single `RoundTrip` call: mutex acquire and release,
reads of the `responders` map and of the `noResponder` field, and the
invocation of a selected responder. -/
inductive Ev where
  | lock
  | unlock
  | readResponders
  | readNoResponder
  | invokeGen
deriving DecidableEq, Repr

/-- Events of one `responderForKey` call: `m.mu.Lock()`, the map iteration,
`m.mu.Unlock()` (by `defer`, before the caller resumes). -/
def lookupEvents : List Ev :=
  [Ev.lock, Ev.readResponders, Ev.unlock]

/-- The event trace of `RoundTrip` on `req`, following transport.go lines
46-71: one `responderForKey` call, a second one when the first found nothing
and the URL contains `?`; then either the invocation of the found responder
(mutex free), or `m.mu.Lock()`, the read of `noResponder`, its invocation
when non-nil, and the deferred `m.mu.Unlock()` after that call returns. -/
def MockTransport.dispatchTrace (m : MockTransport) (req : Request) : List Ev :=
  let lookupTrace :=
    if (m.responderForKey (req.method ++ " " ++ req.url)).isNone && containsQuery req.url then
      lookupEvents ++ lookupEvents
    else
      lookupEvents
  match m.chosenResponder req with
  | some _ => lookupTrace ++ [Ev.invokeGen]
  | none =>
    match m.noResponder with
    | none => lookupTrace ++ [Ev.lock, Ev.readNoResponder, Ev.unlock]
    | some _ => lookupTrace ++ [Ev.lock, Ev.readNoResponder, Ev.invokeGen, Ev.unlock]

/-- `invokesOutsideLock t d = true` iff every `invokeGen` in `t` happens at
lock depth zero, starting from depth `d`. -/
def invokesOutsideLock : List Ev → Nat → Bool
  | [], _ => true
  | Ev.lock :: t, d => invokesOutsideLock t (d + 1)
  | Ev.unlock :: t, d => invokesOutsideLock t (d - 1)
  | Ev.invokeGen :: t, d => (d == 0) && invokesOutsideLock t d
  | _ :: t, d => invokesOutsideLock t d

/-- `accessesUnderLock t d = true` iff every read of the `responders` map or
the `noResponder` field in `t` happens at positive lock depth, starting from
depth `d`. -/
def accessesUnderLock : List Ev → Nat → Bool
  | [], _ => true
  | Ev.lock :: t, d => accessesUnderLock t (d + 1)
  | Ev.unlock :: t, d => accessesUnderLock t (d - 1)
  | Ev.readResponders :: t, d => (d != 0) && accessesUnderLock t d
  | Ev.readNoResponder :: t, d => (d != 0) && accessesUnderLock t d
  | Ev.invokeGen :: t, d => accessesUnderLock t d

/-! ### Activation controller

Global state touched by `Activate`, `ActivateNonDefault` and `Deactivate`:
`http.DefaultTransport`, `Transports.Initial`, `oldHTTPGlobals.transport`,
`oldHTTPGlobals.client`, and the admission-gate counter `queue.isLocked`.
Transport identity (Go pointer comparison `http.DefaultTransport !=
Transports.Default`) is modelled by the inductive `RT`; exactly one external
client object is modelled, whose `Transport` field is `clientTransport`. -/

/-- A round-tripper reference: the controller's mock transport
(`Transports.Default`), some other transport, or Go `nil`. -/
inductive RT where
  | mockDefault
  | real (id : Nat)
  | nilT
deriving DecidableEq, Repr

/-- The global mutable state of the activation controller.  `disabled` is
the external `Disabled()` predicate (an environment toggle, out of scope),
`isLocked` is `queue.isLocked` (0, 1 or 2), `defaultTransport` is
`http.DefaultTransport`, `initial` is `Transports.Initial`, `oldTransport`
and `clientSet` are `oldHTTPGlobals.transport` and whether
`oldHTTPGlobals.client` is non-nil, and `clientTransport` is the modelled
client's `Transport` field. -/
structure GlobalState where
  disabled : Bool
  isLocked : Nat
  defaultTransport : RT
  initial : RT
  oldTransport : RT
  clientSet : Bool
  clientTransport : RT
deriving DecidableEq, Repr

/-- Result of an activation call: `done` with the new state, or `blocked`
when the caller parked on `queue.wait` (having stored `isLocked = 2`); the
blocked caller performs no further state change until a `Deactivate` hands
off. -/
inductive ActResult where
  | done (s : GlobalState)
  | blocked (s : GlobalState)
deriving DecidableEq, Repr

/-- Go `Activate`: return if disabled; acquire the admission gate (blocking
when already held); then record `http.DefaultTransport` into
`Transports.Initial` unless it is already the mock transport, and install
the mock transport as `http.DefaultTransport`. -/
def Activate (s : GlobalState) : ActResult :=
  if s.disabled then ActResult.done s
  else if 1 ≤ s.isLocked then ActResult.blocked { s with isLocked := 2 }
  else ActResult.done
    { s with
      isLocked := 1
      initial := if s.defaultTransport = RT.mockDefault then s.initial else s.defaultTransport
      defaultTransport := RT.mockDefault }

/-- Go `ActivateNonDefault`: return if disabled; acquire the admission gate;
save the client's transport into `oldHTTPGlobals.transport`, record the
client, and install the mock transport on the client. -/
def ActivateNonDefault (s : GlobalState) : ActResult :=
  if s.disabled then ActResult.done s
  else if 1 ≤ s.isLocked then ActResult.blocked { s with isLocked := 2 }
  else ActResult.done
    { s with
      isLocked := 1
      oldTransport := s.clientTransport
      clientSet := true
      clientTransport := RT.mockDefault }

/-- Go `Deactivate`: return if disabled; release the admission gate when
held (the channel hand-off to a parked waiter is a scheduling effect, not a
state change modelled here); restore `http.DefaultTransport` from
`Transports.Initial`; and, when `oldHTTPGlobals.client` is non-nil, restore
that client's transport from `oldHTTPGlobals.transport`.  The client record
is NOT cleared. -/
def Deactivate (s : GlobalState) : GlobalState :=
  if s.disabled then s
  else
    let s1 := if 1 ≤ s.isLocked then { s with isLocked := 0 } else s
    let s2 := { s1 with defaultTransport := s1.initial }
    if s2.clientSet then { s2 with clientTransport := s2.oldTransport } else s2

/-- External mutation of the modelled client's `Transport` field (something
user code may do between library calls). -/
def setClientTransport (s : GlobalState) (x : RT) : GlobalState :=
  { s with clientTransport := x }

/-- The controller's inactive state: the admission gate is idle, the ambient
default transport equals the saved original, and a recorded client's
transport equals its saved original.  This is exactly the configuration
`Deactivate` leaves behind (and the initial configuration at process
start). -/
def Inactive (s : GlobalState) : Prop :=
  s.isLocked = 0 ∧
  s.defaultTransport = s.initial ∧
  (s.clientSet = true → s.clientTransport = s.oldTransport)

/-! ### Concrete instances used by witnesses and counterexamples -/

/-- A responder producing a fixed 200/"ok" response. -/
def respOK : Responder := fun _ => (some { statusCode := 200, body := "ok" }, none)

/-- A responder producing a fixed 200/"hello world" response. -/
def respHello : Responder := fun _ => (some { statusCode := 200, body := "hello world" }, none)

/-- A second distinct responder, used where two generators must differ. -/
def respBye : Responder := fun _ => (some { statusCode := 404, body := "bye" }, none)

/-- Transport with `respHello` registered for `GET http://e.com/`. -/
def mtExact : MockTransport :=
  NewMockTransport.RegisterResponder "GET" "http://e.com/" (some respHello)

/-- The request `GET http://e.com/`. -/
def reqExact : Request := { method := "GET", url := "http://e.com/" }

/-- Transport with `respOK` registered for `GET http://x/a`, as in the
spec's query-fallback scenario. -/
def mtQuery : MockTransport :=
  NewMockTransport.RegisterResponder "GET" "http://x/a" (some respOK)

/-- The request `GET http://x/a?q=1`. -/
def reqQueryGet : Request := { method := "GET", url := "http://x/a?q=1" }

/-- The request `POST http://x/a?q=1`. -/
def reqQueryPost : Request := { method := "POST", url := "http://x/a?q=1" }

/-- Transport with only a catch-all responder set. -/
def mtCatchAll : MockTransport :=
  NewMockTransport.RegisterNoResponder (some respHello)

/-- An unregistered request whose URL contains a query separator. -/
def reqUnmatched : Request := { method := "GET", url := "http://n/a?x=2" }

/-- An unregistered request without a query separator. -/
def reqPlain : Request := { method := "GET", url := "http://x/a" }

/-- Transport with `respOK` registered for `GET http://w`. -/
def mtLockW : MockTransport :=
  NewMockTransport.RegisterResponder "GET" "http://w" (some respOK)

/-- The request `GET http://w`. -/
def reqLockW : Request := { method := "GET", url := "http://w" }

/-- A quiescent controller state: enabled, gate idle, ambient default
transport `real 0`, no client recorded, client transport `real 7`. -/
def gsStart : GlobalState :=
  { disabled := false
    isLocked := 0
    defaultTransport := RT.real 0
    initial := RT.real 0
    oldTransport := RT.nilT
    clientSet := false
    clientTransport := RT.real 7 }

/-- The state `ActivateNonDefault` reaches from `gsStart`: gate held, client
recorded with saved transport `real 7`, mock installed on the client. -/
def gsNonDefault : GlobalState :=
  { disabled := false
    isLocked := 1
    defaultTransport := RT.real 0
    initial := RT.real 0
    oldTransport := RT.real 7
    clientSet := true
    clientTransport := RT.mockDefault }

/-- An inactive state with a client record left over from an earlier
activation cycle: the client's transport equals the saved original. -/
def gsInactive : GlobalState :=
  { disabled := false
    isLocked := 0
    defaultTransport := RT.real 3
    initial := RT.real 3
    oldTransport := RT.real 7
    clientSet := true
    clientTransport := RT.real 7 }

/-! ### Helper lemmas about the registry -/

theorem lookupAL_insertAL_self (rs : List (String × Option Responder)) (k : String)
    (v : Option Responder) : lookupAL (insertAL rs k v) k = some v := by
  induction rs with
  | nil => simp [insertAL, lookupAL]
  | cons p rest ih =>
    by_cases h : p.1 = k
    · simp [insertAL, lookupAL, h]
    · simp [insertAL, lookupAL, h, ih]

theorem lookupAL_insertAL_ne (rs : List (String × Option Responder)) (k k' : String)
    (v : Option Responder) (h : k' ≠ k) :
    lookupAL (insertAL rs k v) k' = lookupAL rs k' := by
  have hk : ¬(k = k') := fun h' => h h'.symm
  induction rs with
  | nil => simp [insertAL, lookupAL, hk]
  | cons p rest ih =>
    by_cases hp : p.1 = k
    · simp [insertAL, lookupAL, hp, hk]
    · simp [insertAL, lookupAL, hp, ih]

theorem insertAL_length_present (rs : List (String × Option Responder)) (k : String)
    (v : Option Responder) (h : lookupAL rs k ≠ none) :
    (insertAL rs k v).length = rs.length := by
  induction rs with
  | nil => simp [lookupAL] at h
  | cons p rest ih =>
    by_cases hp : p.1 = k
    · simp [insertAL, hp]
    · simp only [lookupAL, hp, if_false] at h
      simp [insertAL, hp, ih h]

theorem insertAL_length_absent (rs : List (String × Option Responder)) (k : String)
    (v : Option Responder) (h : lookupAL rs k = none) :
    (insertAL rs k v).length = rs.length + 1 := by
  induction rs with
  | nil => simp [insertAL]
  | cons p rest ih =>
    by_cases hp : p.1 = k
    · simp [lookupAL, hp] at h
    · simp only [lookupAL, hp, if_false] at h
      simp [insertAL, hp, ih h]

theorem responderForKey_register_self (m : MockTransport) (method url : String)
    (v : Option Responder) :
    (m.RegisterResponder method url v).responderForKey (method ++ " " ++ url) = v := by
  simp [MockTransport.responderForKey, MockTransport.RegisterResponder,
    lookupAL_insertAL_self]

theorem responderForKey_register_ne (m : MockTransport) (method url k : String)
    (v : Option Responder) (h : k ≠ method ++ " " ++ url) :
    (m.RegisterResponder method url v).responderForKey k = m.responderForKey k := by
  simp [MockTransport.responderForKey, MockTransport.RegisterResponder,
    lookupAL_insertAL_ne _ _ _ _ h]

theorem chosenResponder_of_exact (m : MockTransport) (req : Request) (r : Responder)
    (h : m.responderForKey (req.method ++ " " ++ req.url) = some r) :
    m.chosenResponder req = some r := by
  simp [MockTransport.chosenResponder, h]

theorem roundTrip_of_chosen (m : MockTransport) (req : Request) (r : Responder)
    (h : m.chosenResponder req = some r) : m.RoundTrip req = r req := by
  simp [MockTransport.RoundTrip, h]

/-! ### C1 -/

/-- C1: dispatch first looks up the exact key (method, full URL); whenever a
generator is bound under that key, `RoundTrip` returns that generator's
output verbatim — for every transport, so regardless of what the
query-stripped key, the catch-all, or the default failure would give. -/
theorem roundTrip_exact_match_returns_verbatim (m : MockTransport) (req : Request)
    (r : Responder) (h : m.responderForKey (req.method ++ " " ++ req.url) = some r) :
    m.RoundTrip req = r req :=
  roundTrip_of_chosen m req r (chosenResponder_of_exact m req r h)

/-- C1 witness: `respHello` registered for `GET http://e.com/` is dispatched
verbatim on that exact request. -/
theorem roundTrip_exact_match_witness :
    mtExact.responderForKey (reqExact.method ++ " " ++ reqExact.url) = some respHello ∧
    mtExact.RoundTrip reqExact = respHello reqExact :=
  ⟨rfl, roundTrip_exact_match_returns_verbatim mtExact reqExact respHello rfl⟩

/-! ### C2 -/

/-- C2: when the exact key misses and the URL contains `?`, dispatch retries
with the URL truncated at the first `?` (general part); concretely, with
`respOK` under `GET http://x/a`, the request `GET http://x/a?q=1` dispatches
to it, `POST http://x/a?q=1` yields the sentinel, and truncation keeps only
the part before the first separator, discarding later ones wholesale. -/
theorem roundTrip_query_strip_fallback (m : MockTransport) (req : Request) (r : Responder)
    (h1 : m.responderForKey (req.method ++ " " ++ req.url) = none)
    (h2 : containsQuery req.url = true)
    (h3 : m.responderForKey (req.method ++ " " ++ stripQuery req.url) = some r) :
    m.RoundTrip req = r req ∧
    mtQuery.RoundTrip reqQueryGet = respOK reqQueryGet ∧
    mtQuery.RoundTrip reqQueryPost = (none, some Err.noResponderFound) ∧
    stripQuery "http://x/a?q=1?r=2" = "http://x/a" ∧
    mtQuery.RoundTrip { method := "GET", url := "http://x/a?q=1?r=2" } =
      respOK { method := "GET", url := "http://x/a?q=1?r=2" } := by
  refine ⟨?_, rfl, rfl, rfl, rfl⟩
  apply roundTrip_of_chosen
  simp [MockTransport.chosenResponder, h1, h2, h3]

/-- C2 witness: the query-fallback theorem applied to the concrete
`GET http://x/a?q=1` scenario. -/
theorem roundTrip_query_strip_fallback_witness :
    mtQuery.responderForKey (reqQueryGet.method ++ " " ++ reqQueryGet.url) = none ∧
    containsQuery reqQueryGet.url = true ∧
    mtQuery.responderForKey (reqQueryGet.method ++ " " ++ stripQuery reqQueryGet.url) =
      some respOK ∧
    mtQuery.RoundTrip reqQueryGet = respOK reqQueryGet :=
  ⟨rfl, rfl, rfl,
    (roundTrip_query_strip_fallback mtQuery reqQueryGet respOK rfl rfl rfl).1⟩

/-! ### C3 -/

/-- C3: when neither the exact nor the query-stripped lookup finds a
generator, dispatch returns the catch-all's output when one is set and the
`(nil, no responder found)` sentinel otherwise; `RegisterNoResponder nil`
clears the catch-all slot, after which unmatched dispatch falls through to
the default failure. -/
theorem roundTrip_catchall_and_sentinel (m : MockTransport) (req : Request)
    (h1 : m.responderForKey (req.method ++ " " ++ req.url) = none)
    (h2 : containsQuery req.url = true →
      m.responderForKey (req.method ++ " " ++ stripQuery req.url) = none) :
    (∀ g, m.noResponder = some g → m.RoundTrip req = g req) ∧
    (m.noResponder = none → m.RoundTrip req = (none, some Err.noResponderFound)) ∧
    ((m.RegisterNoResponder none).noResponder = none) ∧
    ((m.RegisterNoResponder none).RoundTrip req = (none, some Err.noResponderFound)) := by
  have hc : m.chosenResponder req = none := by
    unfold MockTransport.chosenResponder
    rw [h1]
    by_cases hq : containsQuery req.url
    · simp [hq, h2 hq]
    · simp [hq]
  have hc2 : MockTransport.chosenResponder
      { responders := m.responders, noResponder := none } req = none := hc
  refine ⟨?_, ?_, rfl, ?_⟩
  · intro g hg
    simp [MockTransport.RoundTrip, hc, hg]
  · intro hn
    simp [MockTransport.RoundTrip, hc, hn, ConnectionFailure]
  · simp [MockTransport.RoundTrip, MockTransport.RegisterNoResponder, hc2, ConnectionFailure]

/-- C3 witness: with only a catch-all set, the unmatched request
`GET http://n/a?x=2` dispatches to the catch-all; after clearing it with
`RegisterNoResponder nil`, the same request yields the sentinel. -/
theorem roundTrip_catchall_and_sentinel_witness :
    mtCatchAll.RoundTrip reqUnmatched = respHello reqUnmatched ∧
    (mtCatchAll.RegisterNoResponder none).RoundTrip reqUnmatched =
      (none, some Err.noResponderFound) :=
  ⟨(roundTrip_catchall_and_sentinel mtCatchAll reqUnmatched rfl (fun _ => rfl)).1
      respHello rfl,
   (roundTrip_catchall_and_sentinel mtCatchAll reqUnmatched rfl (fun _ => rfl)).2.2.2⟩

/-! ### C4 -/

/-- C4: re-registering an existing key replaces the binding — exact-key
lookup and dispatch now return the new generator's output — and `Len` keeps
its value from before the re-registration. -/
theorem registerResponder_overwrite (m : MockTransport) (method url : String)
    (g2 : Responder) (h : lookupAL m.responders (method ++ " " ++ url) ≠ none) :
    ((m.RegisterResponder method url (some g2)).responderForKey (method ++ " " ++ url) =
      some g2) ∧
    ((m.RegisterResponder method url (some g2)).RoundTrip { method := method, url := url } =
      g2 { method := method, url := url }) ∧
    (m.RegisterResponder method url (some g2)).Len = m.Len := by
  refine ⟨responderForKey_register_self m method url (some g2), ?_, ?_⟩
  · apply roundTrip_of_chosen
    apply chosenResponder_of_exact
    exact responderForKey_register_self m method url (some g2)
  · simp [MockTransport.Len, MockTransport.RegisterResponder,
      insertAL_length_present _ _ _ h]

/-- C4 witness: overwriting `GET http://e.com/` (bound to `respHello`) with
`respBye` makes dispatch return `respBye`'s output and keeps `Len`. -/
theorem registerResponder_overwrite_witness :
    ((mtExact.RegisterResponder "GET" "http://e.com/" (some respBye)).responderForKey
      ("GET" ++ " " ++ "http://e.com/") = some respBye) ∧
    ((mtExact.RegisterResponder "GET" "http://e.com/" (some respBye)).RoundTrip
      { method := "GET", url := "http://e.com/" } =
      respBye { method := "GET", url := "http://e.com/" }) ∧
    (mtExact.RegisterResponder "GET" "http://e.com/" (some respBye)).Len = mtExact.Len :=
  registerResponder_overwrite mtExact "GET" "http://e.com/" respBye
    (by intro hh; exact Option.noConfusion hh)

/-! ### C9 -/

/-- C9: registering a nil generator under a fresh key makes `Len` count the
key, yet `responderForKey` reports no match for it and dispatch of every
request behaves exactly as it did before the registration (falling through
the query-stripped lookup, the catch-all, and the sentinel unchanged). -/
theorem registerResponder_nil_generator (m : MockTransport) (method url : String)
    (h : lookupAL m.responders (method ++ " " ++ url) = none) :
    (m.RegisterResponder method url none).Len = m.Len + 1 ∧
    (m.RegisterResponder method url none).responderForKey (method ++ " " ++ url) = none ∧
    ∀ req, (m.RegisterResponder method url none).RoundTrip req = m.RoundTrip req := by
  refine ⟨?_, responderForKey_register_self m method url none, ?_⟩
  · simp [MockTransport.Len, MockTransport.RegisterResponder,
      insertAL_length_absent _ _ _ h]
  · intro req
    have hkey : ∀ k, (m.RegisterResponder method url none).responderForKey k =
        m.responderForKey k := by
      intro k
      by_cases hk : k = method ++ " " ++ url
      · subst hk
        rw [responderForKey_register_self]
        simp [MockTransport.responderForKey, h]
      · exact responderForKey_register_ne m method url k none hk
    have hch : (m.RegisterResponder method url none).chosenResponder req =
        m.chosenResponder req := by
      unfold MockTransport.chosenResponder
      rw [hkey, hkey]
    unfold MockTransport.RoundTrip
    rw [hch]
    rfl

/-- C9 witness: the nil registration theorem at the fresh key
`GET http://nil.example` on the empty transport. -/
theorem registerResponder_nil_generator_witness :
    (NewMockTransport.RegisterResponder "GET" "http://nil.example" none).Len =
      NewMockTransport.Len + 1 ∧
    (NewMockTransport.RegisterResponder "GET" "http://nil.example" none).responderForKey
      ("GET" ++ " " ++ "http://nil.example") = none ∧
    (NewMockTransport.RegisterResponder "GET" "http://nil.example" none).RoundTrip
      { method := "GET", url := "http://nil.example" } =
      NewMockTransport.RoundTrip { method := "GET", url := "http://nil.example" } :=
  ⟨(registerResponder_nil_generator NewMockTransport "GET" "http://nil.example" rfl).1,
   (registerResponder_nil_generator NewMockTransport "GET" "http://nil.example" rfl).2.1,
   (registerResponder_nil_generator NewMockTransport "GET" "http://nil.example" rfl).2.2 _⟩

/-! ### C10 -/

/-- C10: the registry key is the plain concatenation `method ++ " " ++ url`,
so two distinct (method, url) pairs with equal concatenations denote one
entry: registering under the first pair makes dispatch match a request
carrying the second pair, and a second registration under the second pair
overwrites the first binding without growing the registry. -/
theorem key_concatenation_ambiguity (m : MockTransport) (m1 u1 m2 u2 : String)
    (g g1 g2 : Responder) (h : m1 ++ " " ++ u1 = m2 ++ " " ++ u2) :
    ((m.RegisterResponder m1 u1 (some g)).RoundTrip { method := m2, url := u2 } =
      g { method := m2, url := u2 }) ∧
    (((m.RegisterResponder m1 u1 (some g1)).RegisterResponder m2 u2
      (some g2)).responderForKey (m1 ++ " " ++ u1) = some g2) ∧
    ((m.RegisterResponder m1 u1 (some g1)).RegisterResponder m2 u2 (some g2)).Len =
      (m.RegisterResponder m1 u1 (some g1)).Len := by
  have hpresent : lookupAL (m.RegisterResponder m1 u1 (some g1)).responders
      (m2 ++ " " ++ u2) ≠ none := by
    rw [← h]
    simp [MockTransport.RegisterResponder, lookupAL_insertAL_self]
  refine ⟨?_, ?_, ?_⟩
  · apply roundTrip_of_chosen
    apply chosenResponder_of_exact
    show (m.RegisterResponder m1 u1 (some g)).responderForKey (m2 ++ " " ++ u2) = some g
    rw [← h]
    exact responderForKey_register_self m m1 u1 (some g)
  · rw [h]
    exact responderForKey_register_self _ m2 u2 (some g2)
  · exact insertAL_length_present
      (insertAL m.responders (m1 ++ " " ++ u1) (some g1))
      (m2 ++ " " ++ u2) (some g2) hpresent

/-- C10 witness: ("GET", "a b") and ("GET a", "b") concatenate to the same
key, so a registration under the first is hit by a request carrying the
second, and re-registration under the second overwrites without growing. -/
theorem key_concatenation_ambiguity_witness :
    ((NewMockTransport.RegisterResponder "GET" "a b" (some respOK)).RoundTrip
      { method := "GET a", url := "b" } = respOK { method := "GET a", url := "b" }) ∧
    (((NewMockTransport.RegisterResponder "GET" "a b" (some respHello)).RegisterResponder
      "GET a" "b" (some respBye)).responderForKey ("GET" ++ " " ++ "a b") = some respBye) ∧
    ((NewMockTransport.RegisterResponder "GET" "a b" (some respHello)).RegisterResponder
      "GET a" "b" (some respBye)).Len =
      (NewMockTransport.RegisterResponder "GET" "a b" (some respHello)).Len :=
  key_concatenation_ambiguity NewMockTransport "GET" "a b" "GET a" "b"
    respOK respHello respBye rfl

/-! ### C5 -/

/-- C5 counterexample: with only a catch-all responder set and the plain
request `GET http://x/a`, the dispatch trace invokes the chosen (catch-all)
generator at lock depth 1 — the mutex is held across the user call, because
the deferred unlock fires only after `m.noResponder(req)` returns — so the
claim "reads under lock AND every chosen-generator invocation outside the
lock" fails on this input. -/
theorem lock_discipline_counterexample :
    ¬(accessesUnderLock (mtCatchAll.dispatchTrace reqPlain) 0 = true ∧
      invokesOutsideLock (mtCatchAll.dispatchTrace reqPlain) 0 = true) := by
  decide

/-- C5 amended: every read of the registry and of the catch-all field occurs
while the lock is held, and a generator found by the exact or query-stripped
lookup is invoked with the lock released; but when the catch-all generator
is the one selected, it is invoked while the lock is held. -/
theorem lock_discipline_amended (m : MockTransport) (req : Request) :
    accessesUnderLock (m.dispatchTrace req) 0 = true ∧
    (m.chosenResponder req ≠ none → invokesOutsideLock (m.dispatchTrace req) 0 = true) ∧
    (m.chosenResponder req = none → m.noResponder ≠ none →
      invokesOutsideLock (m.dispatchTrace req) 0 = false) := by
  refine ⟨?_, ?_, ?_⟩
  · unfold MockTransport.dispatchTrace
    rcases m.chosenResponder req with _ | r
    · rcases m.noResponder with _ | g
      · split <;> (dsimp only; decide)
      · split <;> (dsimp only; decide)
    · split <;> (dsimp only; decide)
  · intro h
    unfold MockTransport.dispatchTrace
    rcases hch : m.chosenResponder req with _ | r
    · exact absurd hch h
    · split <;> (dsimp only; decide)
  · intro h1 h2
    unfold MockTransport.dispatchTrace
    rw [h1]
    rcases hn : m.noResponder with _ | g
    · exact absurd hn h2
    · split <;> (dsimp only; decide)

/-- C5 amended witness: a registered exact-match responder really is invoked
outside the lock, and all accesses are under the lock. -/
theorem lock_discipline_amended_witness :
    accessesUnderLock (mtLockW.dispatchTrace reqLockW) 0 = true ∧
    invokesOutsideLock (mtLockW.dispatchTrace reqLockW) 0 = true :=
  ⟨(lock_discipline_amended mtLockW reqLockW).1,
   (lock_discipline_amended mtLockW reqLockW).2.1
     (by intro hh; exact Option.noConfusion hh)⟩

/-! ### C6 -/

/-- C6: from an idle, enabled state, `Activate` records the ambient default
transport into `Transports.Initial` only when it is not already the mock
transport; a repeated `Activate` without an intervening `Deactivate` parks
on the admission gate after storing only `isLocked = 2` (so `initial` is
untouched); and `Deactivate` restores the ambient default transport to
exactly the reference captured at the transition into the active state. -/
theorem activate_records_initial_once (s : GlobalState)
    (hd : s.disabled = false) (hl : s.isLocked = 0) :
    ∃ s1, Activate s = ActResult.done s1 ∧
      s1.initial = (if s.defaultTransport = RT.mockDefault then s.initial
        else s.defaultTransport) ∧
      s1.defaultTransport = RT.mockDefault ∧
      Activate s1 = ActResult.blocked { s1 with isLocked := 2 } ∧
      (Deactivate s1).defaultTransport =
        (if s.defaultTransport = RT.mockDefault then s.initial else s.defaultTransport) := by
  have h1 : Activate s = ActResult.done
      { s with
        isLocked := 1
        initial := if s.defaultTransport = RT.mockDefault then s.initial
          else s.defaultTransport
        defaultTransport := RT.mockDefault } := by
    simp [Activate, hd, hl]
  refine ⟨_, h1, rfl, rfl, ?_, ?_⟩
  · simp [Activate, hd]
  · unfold Deactivate
    dsimp only
    rw [hd]
    by_cases hcs : s.clientSet = true <;> simp [hcs]

/-- C6 witness: the activate/record/deactivate theorem at the concrete
quiescent state `gsStart` (ambient default `real 0`). -/
theorem activate_records_initial_once_witness :
    ∃ s1, Activate gsStart = ActResult.done s1 ∧
      s1.initial = (if gsStart.defaultTransport = RT.mockDefault then gsStart.initial
        else gsStart.defaultTransport) ∧
      s1.defaultTransport = RT.mockDefault ∧
      Activate s1 = ActResult.blocked { s1 with isLocked := 2 } ∧
      (Deactivate s1).defaultTransport =
        (if gsStart.defaultTransport = RT.mockDefault then gsStart.initial
          else gsStart.defaultTransport) :=
  activate_records_initial_once gsStart rfl rfl

/-! ### C7 -/

/-- C7 counterexample: from `gsStart`, `ActivateNonDefault` records the
client; the first `Deactivate` restores the client's transport (`real 7`)
but leaves the client record set, and after the client's transport is
externally changed to `real 9`, a second `Deactivate` overwrites it back to
`real 7` — so the record is not cleared and later `Deactivate` calls do
touch the client, contradicting the claim. -/
theorem deactivate_client_record_counterexample :
    ActivateNonDefault gsStart = ActResult.done gsNonDefault ∧
    (Deactivate gsNonDefault).clientSet = true ∧
    (Deactivate (setClientTransport (Deactivate gsNonDefault) (RT.real 9))).clientTransport =
      RT.real 7 ∧
    RT.real 7 ≠ RT.real 9 := by
  decide

/-- C7 helper: field-level effect of `Deactivate` on an enabled state with a
recorded client. -/
theorem deactivate_fields (s : GlobalState) (hd : s.disabled = false)
    (hc : s.clientSet = true) :
    (Deactivate s).clientTransport = s.oldTransport ∧
    (Deactivate s).clientSet = true ∧
    (Deactivate s).oldTransport = s.oldTransport ∧
    (Deactivate s).disabled = false := by
  unfold Deactivate
  by_cases hL : 1 ≤ s.isLocked <;> simp [hd, hc, hL]

/-- C7 amended: when a redirected client was recorded, `Deactivate` restores
that client's transport to the saved original but does NOT clear the
redirected-client record; consequently every later `Deactivate` call again
overwrites that client's transport with the saved original. -/
theorem deactivate_client_restore_amended (s : GlobalState)
    (hd : s.disabled = false) (hc : s.clientSet = true) :
    (Deactivate s).clientTransport = s.oldTransport ∧
    (Deactivate s).clientSet = true ∧
    ∀ x, (Deactivate (setClientTransport (Deactivate s) x)).clientTransport =
      s.oldTransport := by
  obtain ⟨h1, h2, h3, h4⟩ := deactivate_fields s hd hc
  refine ⟨h1, h2, ?_⟩
  intro x
  have hd' : (setClientTransport (Deactivate s) x).disabled = false := h4
  have hc' : (setClientTransport (Deactivate s) x).clientSet = true := h2
  have hres := (deactivate_fields _ hd' hc').1
  rw [hres]
  exact h3

/-- C7 amended witness: the amended theorem at the concrete post-activation
state `gsNonDefault`, with the external mutation setting `real 9`. -/
theorem deactivate_client_restore_amended_witness :
    (Deactivate gsNonDefault).clientTransport = gsNonDefault.oldTransport ∧
    (Deactivate gsNonDefault).clientSet = true ∧
    (Deactivate (setClientTransport (Deactivate gsNonDefault) (RT.real 9))).clientTransport =
      gsNonDefault.oldTransport :=
  ⟨(deactivate_client_restore_amended gsNonDefault rfl rfl).1,
   (deactivate_client_restore_amended gsNonDefault rfl rfl).2.1,
   (deactivate_client_restore_amended gsNonDefault rfl rfl).2.2 (RT.real 9)⟩

/-! ### C8 -/

/-- C8: calling `Deactivate` in an inactive state (gate idle, ambient
default equal to the saved original, recorded client — if any — already
restored) changes nothing: the resulting global state is the same state. -/
theorem deactivate_inactive_noop (s : GlobalState) (h : Inactive s) :
    Deactivate s = s := by
  obtain ⟨hL, hDT, hC⟩ := h
  cases s with
  | mk dis lk dt ini old cs ct =>
    dsimp only at hL hDT hC
    subst hL
    subst hDT
    cases dis
    · cases cs
      · simp [Deactivate]
      · have hct : ct = old := hC rfl
        subst hct
        simp [Deactivate]
    · simp [Deactivate]

/-- C8 witness: `Deactivate` is the identity on the concrete inactive state
`gsInactive`. -/
theorem deactivate_inactive_noop_witness : Deactivate gsInactive = gsInactive :=
  deactivate_inactive_noop gsInactive ⟨rfl, rfl, fun _ => rfl⟩

end Httpmock
